import Mathlib

/-
  Shallow embedding of planetcoveragefinder (src/planetcoveragefinder/processor.py).

  Geometry model: planar geometries are modelled as finite sets of unit cells
  (Finset ℕ).  Shapely operations map to set operations: intersection = ∩,
  union = ∪, difference = \, area = cardinality (as ℚ), is_empty = (= ∅),
  A.intersects(B) = (A ∩ B).Nonempty, A.covers(B) = B ⊆ A, and
  A.contains(B) = B.Nonempty ∧ B ⊆ A (shapely contains is False for an empty
  argument; interior/boundary subtleties of degenerate polygons are outside the
  cell model, and in build_mosaic the subsequent new_geom.is_empty guard makes
  the outcome independent of that distinction).

  Numbers: Python floats are modelled as exact rationals; Python int() on a
  nonnegative value truncates, modelled by pyint.  Python division by zero
  raises, modelled with Except where the code can hit it.

  External collaborators (catalog search, the downloader, the raster reader)
  are parameters (oracles); all decision logic is translated from the source.
-/

namespace PCF

abbrev Geometry := Finset ℕ

/-- shapely A.intersects(B): the geometries share at least one point. -/
def gIntersects (a b : Geometry) : Prop := (a ∩ b).Nonempty

/-- shapely A.contains(B): B lies inside A; False when B is empty. -/
def gContains (a b : Geometry) : Prop := b.Nonempty ∧ b ⊆ a

/-- shapely A.covers(B): no point of B is outside A. -/
def gCovers (a b : Geometry) : Prop := b ⊆ a

/-- shapely .area, as an exact rational (number of cells). -/
def gArea (a : Geometry) : ℚ := a.card

instance (a b : Geometry) : Decidable (gIntersects a b) := by
  unfold gIntersects; infer_instance

instance (a b : Geometry) : Decidable (gContains a b) := by
  unfold gContains; infer_instance

instance (a b : Geometry) : Decidable (gCovers a b) := by
  unfold gCovers; infer_instance

/-- Python int() applied to a (model) real number: truncation toward zero. -/
def pyint (q : ℚ) : ℤ := Int.tdiv q.num q.den

/-- A catalog item: id, footprint geometry, and the metadata fields read by
item_metadata_cloudiness.  visible_percent is Optional (the field may be
absent from the metadata dict); cloud_cover is always present for PSScene. -/
structure Item where
  id : ℕ
  geometry : Geometry
  visible_percent : Option ℚ
  cloud_cover : ℚ
deriving DecidableEq

/-- processor.py item_metadata_cloudiness.  Python truthiness: the branch
`if visible_percent:` is False both when the field is absent (None) and when
it equals 0. -/
def item_metadata_cloudiness (item : Item) : ℚ :=
  match item.visible_percent with
  | some v => if v = 0 then item.cloud_cover * 100 else 100 - v
  | none => item.cloud_cover * 100

/-- processor.py Tile: source item plus the newly contributed geometry. -/
structure Tile where
  item : Item
  geom : Geometry
deriving DecidableEq

def Tile.id (t : Tile) : ℕ := t.item.id

def Tile.area (t : Tile) : ℚ := gArea t.geom

/-- processor.py MAX_TILES. -/
def MAX_TILES : ℕ := 64

/-- The Processor configuration fields the embedded logic reads
(dates/frame/satellite/bundle and the like only feed the external
collaborators and are handled by oracles). -/
structure Processor where
  max_clouds : ℤ
  min_confidence : ℤ
  min_cover : ℤ
  mask_bands : List ℕ
  order : Bool
  download : Bool

/-- The tail of Processor.build_mosaic after the loop:
mosaic = mosaic ∩ aoi; cover = int(mosaic.area / aoi.area * 100); accept the
tile list iff min_cover ≤ cover, else return ([], None, cover).
(For an empty AOI Python would raise ZeroDivisionError; in the model the
rational division yields 0, and no theorem below depends on that case since an
empty AOI never accepts a tile.) -/
def buildFinish (p : Processor) (aoiGeom mosaic : Geometry) (tiles : List Tile) :
    List Tile × Option Geometry × ℤ :=
  let m := mosaic ∩ aoiGeom
  let cover := pyint (gArea m / gArea aoiGeom * 100)
  if p.min_cover ≤ cover then (tiles, some m, cover) else ([], none, cover)

/-- The loop of Processor.build_mosaic, translated clause by clause. -/
def buildLoop (p : Processor) (aoiGeom : Geometry) :
    List Item → Geometry → List Tile → List Tile × Option Geometry × ℤ
  | [], mosaic, tiles => buildFinish p aoiGeom mosaic tiles
  | item :: res, mosaic, tiles =>
      let footprint := item.geometry
      let geom := footprint ∩ aoiGeom
      if gIntersects aoiGeom geom ∧ ¬ gContains mosaic geom then
        let new_geom := geom \ mosaic
        if new_geom = ∅ then
          buildLoop p aoiGeom res mosaic tiles
        else
          let mosaic2 := mosaic ∪ footprint
          let tiles2 := tiles ++ [⟨item, new_geom⟩]
          if gCovers mosaic2 aoiGeom then (tiles2, some aoiGeom, 100)
          else if MAX_TILES < tiles2.length then
            buildFinish p aoiGeom mosaic2 tiles2
          else
            buildLoop p aoiGeom res mosaic2 tiles2
      else
        buildLoop p aoiGeom res mosaic tiles

/-- Processor.build_mosaic: start from an empty coverage. -/
def build_mosaic (p : Processor) (res : List Item) (aoiGeom : Geometry) :
    List Tile × Option Geometry × ℤ :=
  buildLoop p aoiGeom res ∅ []

/-- The downloads dict used by Processor.download_udm: item id ↦
(asset type, local filename).  Python dict assignment overwrites by key. -/
abbrev DLDict := List (ℕ × String × String)

def dictInsert (d : DLDict) (k : ℕ) (v : String × String) : DLDict :=
  match d with
  | [] => [(k, v.1, v.2)]
  | (k2, a, f) :: rest =>
      if k = k2 then (k, v.1, v.2) :: rest else (k2, a, f) :: dictInsert rest k v

def dictLookup (d : DLDict) (k : ℕ) : Option (String × String) :=
  match d with
  | [] => none
  | (k2, a, f) :: rest => if k = k2 then some (a, f) else dictLookup rest k

/-- Processor.download_udm.  The on_complete callback fires once per asset the
downloader actually delivers (an oracle: the list completed of
(item id, asset type, filename) triples, filenames living in this call's
temporary directory) and writes each into the downloads dict.

Crucially, in the source the downloads parameter has the mutable default
value of an empty dict, which Python evaluates once at function definition:
every call made without an explicit downloads argument (as in get_clouds)
receives the same shared dict object, so its contents persist across dates
and AOIs.  The model makes that state explicit: the caller passes the dict's
current contents and receives the updated contents. -/
def download_udm (completed : List (ℕ × String × String)) (downloads : DLDict) :
    DLDict :=
  completed.foldl (fun d c => dictInsert d c.1 (c.2.1, c.2.2)) downloads

/-- Per-tile cloud evaluation inside the loop of Processor.get_clouds.
With mask bands configured: look the tile up in the downloads dict (a missing
entry raises the no-udm Exception), run the udm analysis on the downloaded
file (udmEval is the oracle for get_udm_clouds, returning
(clear, cloud, confidence) counts of the raster), and guard the degenerate
zero-pixel case.  Without mask bands: metadata strategy, confidence 0. -/
def tileClouds (p : Processor) (downloads : DLDict)
    (udmEval : String → ℕ × ℕ × ℚ) (t : Tile) : Except String (ℚ × ℚ) :=
  if p.mask_bands ≠ [] then
    match dictLookup downloads t.id with
    | none =>
        Except.error ("no udm/udm2 was available for " ++ Nat.repr t.id ++
          ", trying another day")
    | some (_, filename) =>
        let r := udmEval filename
        let clear := r.1
        let cloud := r.2.1
        let confidence := r.2.2
        if clear + cloud = 0 then Except.ok (0, 0)
        else Except.ok (100 * (cloud : ℚ) / ((clear : ℚ) + (cloud : ℚ)), confidence)
  else
    Except.ok (item_metadata_cloudiness t.item, 0)

/-- The accumulation loop of Processor.get_clouds:
mosaic_clouds += tile.clouds * (tile.area / mosaic.area) and likewise for
confidence.  Python raises ZeroDivisionError on tile.area / mosaic.area when
the mosaic area is 0 (this happens after the tile's own clouds were
computed). -/
def cloudsLoop (p : Processor) (downloads : DLDict)
    (udmEval : String → ℕ × ℕ × ℚ) (mosaicArea : ℚ) :
    List Tile → ℚ → ℚ → Except String (ℤ × ℤ)
  | [], mc, mconf => Except.ok (pyint mc, pyint mconf)
  | t :: ts, mc, mconf =>
      match tileClouds p downloads udmEval t with
      | Except.error e => Except.error e
      | Except.ok cc =>
          if mosaicArea = 0 then Except.error "ZeroDivisionError"
          else
            cloudsLoop p downloads udmEval mosaicArea ts
              (mc + cc.1 * (t.area / mosaicArea))
              (mconf + cc.2 * (t.area / mosaicArea))

/-- Processor.get_clouds.  The downloads dict is the state of the shared
download bookkeeping after download_udm ran for this call (empty and unused
on the metadata path); udmEval is the raster-analysis oracle.  Returns
(int(mosaic_clouds), int(mosaic_confidence)) or the Python exception. -/
def get_clouds (p : Processor) (downloads : DLDict)
    (udmEval : String → ℕ × ℕ × ℚ) (tiles : List Tile) (mosaicGeom : Geometry) :
    Except String (ℤ × ℤ) :=
  cloudsLoop p downloads udmEval (gArea mosaicGeom) tiles 0 0

/-- The per-AOI mutable state that Processor.get_tiles updates. -/
structure AOIState where
  geom : Geometry
  max_cover : ℤ
  min_clouds : ℤ
deriving DecidableEq

/-- Processor.get_tiles, translated clause by clause.  searchRes is the
catalog oracle (the ranked items search_date returns for each date);
downloads/udmEval feed get_clouds on the mask path.  A per-date exception
from get_clouds is caught by the except handler in the loop and the search
continues (the impossible mosaic-None-with-tiles case likewise maps to the
caught AttributeError and a continue). -/
def get_tiles (p : Processor) (searchRes : ℕ → List Item)
    (downloads : DLDict) (udmEval : String → ℕ × ℕ × ℚ) :
    AOIState → List ℕ → AOIState × Option ℕ × List Tile
  | aoi, [] => (aoi, none, [])
  | aoi, date :: dates =>
      let r := build_mosaic p (searchRes date) aoi.geom
      let tiles := r.1
      let mosaicOpt := r.2.1
      let cover := r.2.2
      let aoi1 : AOIState := ⟨aoi.geom, max aoi.max_cover cover, aoi.min_clouds⟩
      if tiles ≠ [] then
        if p.max_clouds < 100 then
          match mosaicOpt with
          | some m =>
              match get_clouds p downloads udmEval tiles m with
              | Except.ok cc =>
                  let aoi2 : AOIState :=
                    ⟨aoi1.geom, aoi1.max_cover, min aoi1.min_clouds cc.1⟩
                  if cc.1 ≤ p.max_clouds ∧ p.min_confidence ≤ cc.2 then
                    (aoi2, some date, tiles)
                  else get_tiles p searchRes downloads udmEval aoi2 dates
              | Except.error _ => get_tiles p searchRes downloads udmEval aoi1 dates
          | none => get_tiles p searchRes downloads udmEval aoi1 dates
        else (aoi1, some date, tiles)
      else get_tiles p searchRes downloads udmEval aoi1 dates

/-- Acceptance of one date, phrased after the spec of Date-Window Search: the
date produced tiles, and either cloud checking is disabled (threshold ≥ 100)
or the evaluated mosaic has cloud-fraction ≤ max-allowed and confidence ≥
min-required. -/
def dateAccepted (p : Processor) (searchRes : ℕ → List Item)
    (downloads : DLDict) (udmEval : String → ℕ × ℕ × ℚ)
    (aoiGeom : Geometry) (date : ℕ) : Bool :=
  let r := build_mosaic p (searchRes date) aoiGeom
  let tiles := r.1
  if tiles = [] then false
  else if 100 ≤ p.max_clouds then true
  else
    match r.2.1 with
    | some m =>
        match get_clouds p downloads udmEval tiles m with
        | Except.ok cc => decide (cc.1 ≤ p.max_clouds ∧ p.min_confidence ≤ cc.2)
        | Except.error _ => false
    | none => false

/-- The dates a run of get_tiles actually evaluates: the prefix up to and
including the first accepted date, or the whole list when none is accepted. -/
def datesTried (accB : ℕ → Bool) : List ℕ → List ℕ
  | [] => []
  | d :: ds => if accB d then [d] else d :: datesTried accB ds

/-- Modelled from the spec: the area-weighted mean aggregation of §4.2,
weight = tile-area / mosaic-area, written as a direct sum of the spec's
products for comparison with the accumulation the code performs. -/
def specWeightedMean (vals areas : List ℚ) (mosaicArea : ℚ) : ℚ :=
  (List.zipWith (fun v a => v * (a / mosaicArea)) vals areas).sum

/-- Processor.__call__, with the three effectful stages as oracles: the
outcome of self.get_tiles(aoi) (a value or a raised exception), of
create_order, and of download_order (which returns None on poll timeout).
Python control flow: on a get_tiles exception, the handler assigns
tiles = [] but the local variable date is left unassigned, so the final
return statement raises UnboundLocalError.  The ok branch mirrors the
order/download logic with each stage's exception caught individually. -/
def Processor.call (p : Processor)
    (getTilesOutcome : Except String (Option ℕ × List Tile))
    (orderOutcome : Except String ℕ)
    (downloadOutcome : Except String (Option (List String))) :
    Except String (Option ℕ × List Tile × Option ℕ × Option (List String)) :=
  match getTilesOutcome with
  | Except.ok dt =>
      let date := dt.1
      let tiles := dt.2
      let order_id : Option ℕ :=
        if tiles ≠ [] ∧ p.order then
          match orderOutcome with
          | Except.ok oid => some oid
          | Except.error _ => none
        else none
      let zip_file : Option (List String) :=
        if tiles ≠ [] ∧ order_id ≠ none ∧ p.download then
          match downloadOutcome with
          | Except.ok zf => zf
          | Except.error _ => none
        else none
      Except.ok (date, tiles, order_id, zip_file)
  | Except.error _ => Except.error "UnboundLocalError"

/-
  Evaluation variants.  Rational arithmetic in this toolchain is deliberately
  irreducible, so closed instances of build_mosaic cannot be evaluated by the
  kernel directly.  buildFinishN / buildLoopN / build_mosaicN recast only the
  final coverage-percentage arithmetic over ℕ; they are proved equal to the
  faithful definitions (build_mosaic_eqN below) and used solely to evaluate
  concrete instances.
-/

def buildFinishN (p : Processor) (aoiGeom mosaic : Geometry) (tiles : List Tile) :
    List Tile × Option Geometry × ℤ :=
  let m := mosaic ∩ aoiGeom
  let cover : ℤ := ((100 * m.card) / aoiGeom.card : ℕ)
  if p.min_cover ≤ cover then (tiles, some m, cover) else ([], none, cover)

def buildLoopN (p : Processor) (aoiGeom : Geometry) :
    List Item → Geometry → List Tile → List Tile × Option Geometry × ℤ
  | [], mosaic, tiles => buildFinishN p aoiGeom mosaic tiles
  | item :: res, mosaic, tiles =>
      let footprint := item.geometry
      let geom := footprint ∩ aoiGeom
      if gIntersects aoiGeom geom ∧ ¬ gContains mosaic geom then
        let new_geom := geom \ mosaic
        if new_geom = ∅ then
          buildLoopN p aoiGeom res mosaic tiles
        else
          let mosaic2 := mosaic ∪ footprint
          let tiles2 := tiles ++ [⟨item, new_geom⟩]
          if gCovers mosaic2 aoiGeom then (tiles2, some aoiGeom, 100)
          else if MAX_TILES < tiles2.length then
            buildFinishN p aoiGeom mosaic2 tiles2
          else
            buildLoopN p aoiGeom res mosaic2 tiles2
      else
        buildLoopN p aoiGeom res mosaic tiles

def build_mosaicN (p : Processor) (res : List Item) (aoiGeom : Geometry) :
    List Tile × Option Geometry × ℤ :=
  buildLoopN p aoiGeom res ∅ []

/-
  Concrete inputs used by counterexamples and witnesses.
-/

/-- A processor on the metadata cloudiness path with the CLI defaults
max_clouds = 100 and min_cover at the low end of its 1..100 range. -/
def pMeta : Processor := ⟨100, 0, 1, [], false, false⟩

/-- A processor on the mask (udm2) path: cloud threshold 50, cloud band 5. -/
def pMask6 : Processor := ⟨50, 0, 1, [5], false, false⟩

/-- 66 candidate items with pairwise disjoint one-cell footprints. -/
def itemsCap : List Item := (List.range 66).map (fun j => ⟨j, {j}, none, 0⟩)

/-- A 66-cell AOI, so that no 65 of the one-cell candidates cover it. -/
def aoiCap : Geometry := Finset.range 66

/-- A two-cell AOI with a partial candidate ranked before a full one. -/
def aoiTwo : Geometry := {0, 1}

def itemPart : Item := ⟨1, {0}, none, 0⟩

def itemFull : Item := ⟨2, {0, 1}, none, 0⟩

/-- An item whose metadata supplies visible_percent = 0 (falsy in Python)
together with cloud_cover = 1/2. -/
def itemVp0 : Item := ⟨7, ∅, some 0, 1/2⟩

/-- A one-cell tile (metadata cloudiness 10, item id 1). -/
def tileOne : Tile := ⟨⟨1, {0}, some 90, 0⟩, {0}⟩

/-- Equal-area tiles with metadata cloudiness 10, 15, 20, 30. -/
def tile15 : Tile := ⟨⟨2, {1}, some 85, 0⟩, {1}⟩

def tile20 : Tile := ⟨⟨2, {1}, some 80, 0⟩, {1}⟩

def tile30 : Tile := ⟨⟨3, {2}, some 70, 0⟩, {2}⟩

/-- A raster-analysis oracle that never sees a file. -/
def ueZero : String → ℕ × ℕ × ℚ := fun _ => (0, 0, 0)

/-- A raster-analysis oracle for the file downloaded by the FIRST cloud
evaluation: half the pixels cloudy, confidence 50; any other file reads as
empty. -/
def ue6 : String → ℕ × ℕ × ℚ :=
  fun fn => if fn = "tmpA/udm_1.tif" then (1, 1, 50) else (0, 0, 0)

/-- The downloads delivered during the first cloud evaluation: the udm2 of
item 1, stored in that evaluation's temporary directory tmpA. -/
def completed6 : List (ℕ × String × String) := [(1, "ortho_udm2", "tmpA/udm_1.tif")]

/-- A catalog oracle returning no candidates for any date. -/
def srEmpty : ℕ → List Item := fun _ => []

/-- A small per-AOI search state over a one-cell AOI. -/
def aoiStW : AOIState := ⟨{0}, 0, 100⟩

/-- Three equal-area tiles with metadata cloudiness 10, 20 and 30. -/
def tilesEq : List Tile := [tileOne, tile20, tile30]

/-- The three-cell mosaic covered by tilesEq. -/
def mosaicEq : Geometry := {0, 1, 2}

/-
  Arithmetic bridge lemmas.
-/

lemma pyint_eq_floor (q : ℚ) (h : 0 ≤ q) : pyint q = ⌊q⌋ := by
  unfold pyint
  rw [Rat.floor_def]
  exact Int.tdiv_eq_ediv (Rat.num_nonneg.mpr h) (by positivity)

lemma pyint_div_mul (a b : ℕ) :
    pyint ((a : ℚ) / (b : ℚ) * 100) = ((100 * a) / b : ℕ) := by
  rcases Nat.eq_zero_or_pos b with hb | hb
  · subst hb
    norm_num [pyint]
  · have h1 : (a : ℚ) / (b : ℚ) * 100 = ((100 * a : ℕ) : ℚ) / ((b : ℕ) : ℚ) := by
      push_cast
      ring
    have hq : (0:ℚ) ≤ (a : ℚ) / (b : ℚ) * 100 := by positivity
    rw [h1] at hq ⊢
    rw [pyint_eq_floor _ hq, Rat.floor_natCast_div_natCast]
    exact (Int.natCast_div _ _).symm

lemma buildFinish_eqN (p : Processor) (a m : Geometry) (t : List Tile) :
    buildFinish p a m t = buildFinishN p a m t := by
  simp only [buildFinish, buildFinishN, gArea, pyint_div_mul]

lemma buildLoop_eqN (p : Processor) (a : Geometry) :
    ∀ (res : List Item) (mosaic : Geometry) (tiles : List Tile),
      buildLoop p a res mosaic tiles = buildLoopN p a res mosaic tiles := by
  intro res
  induction res with
  | nil => intro mosaic tiles; simp only [buildLoop, buildLoopN, buildFinish_eqN]
  | cons item rest ih =>
      intro mosaic tiles
      simp only [buildLoop, buildLoopN, buildFinish_eqN, ih]

lemma build_mosaic_eqN (p : Processor) (res : List Item) (a : Geometry) :
    build_mosaic p res a = build_mosaicN p res a := by
  unfold build_mosaic build_mosaicN
  exact buildLoop_eqN p a res ∅ []

/-
  Structure of the mosaic-builder results.
-/

lemma buildFinish_length (p : Processor) (a m : Geometry) (t : List Tile) :
    (buildFinish p a m t).1.length ≤ t.length := by
  simp only [buildFinish]
  split
  · exact le_refl _
  · simp

lemma buildLoop_length (p : Processor) (a : Geometry) :
    ∀ (res : List Item) (mosaic : Geometry) (tiles : List Tile),
      tiles.length ≤ MAX_TILES →
      (buildLoop p a res mosaic tiles).1.length ≤ MAX_TILES + 1 := by
  intro res
  induction res with
  | nil =>
      intro mosaic tiles h
      exact le_trans (buildFinish_length p a mosaic tiles) (by omega)
  | cons item rest ih =>
      intro mosaic tiles h
      simp only [buildLoop]
      split
      · split
        · exact ih mosaic tiles h
        · split
          · simp only [List.length_append, List.length_cons, List.length_nil]
            omega
          · split
            · refine le_trans (buildFinish_length p a _ _) ?_
              simp only [List.length_append, List.length_cons, List.length_nil]
              omega
            · refine ih _ _ ?_
              rename_i hcap
              simp only [not_lt, List.length_append, List.length_cons,
                List.length_nil] at hcap ⊢
              omega
      · exact ih mosaic tiles h

lemma buildFinish_cases (p : Processor) (a m : Geometry) (t : List Tile) :
    (buildFinish p a m t).1 = t ∨ (buildFinish p a m t).1 = [] := by
  simp only [buildFinish]
  split
  · exact Or.inl rfl
  · exact Or.inr rfl

lemma buildLoop_disjoint (p : Processor) (a : Geometry) :
    ∀ (res : List Item) (mosaic : Geometry) (tiles : List Tile),
      (∀ t ∈ tiles, t.geom.Nonempty) →
      (∀ t ∈ tiles, t.geom ⊆ mosaic) →
      List.Pairwise (fun s t => s.geom ∩ t.geom = ∅) tiles →
      (∀ t ∈ (buildLoop p a res mosaic tiles).1, t.geom.Nonempty) ∧
      List.Pairwise (fun s t => s.geom ∩ t.geom = ∅)
        (buildLoop p a res mosaic tiles).1 := by
  intro res
  induction res with
  | nil =>
      intro mosaic tiles hne hsub hpw
      simp only [buildLoop]
      rcases buildFinish_cases p a mosaic tiles with hc | hc <;> rw [hc]
      · exact ⟨hne, hpw⟩
      · simp
  | cons item rest ih =>
      intro mosaic tiles hne hsub hpw
      simp only [buildLoop]
      split
      · split
        · exact ih mosaic tiles hne hsub hpw
        · rename_i hcond hnew
          have hnt : ((item.geometry ∩ a) \ mosaic).Nonempty :=
            Finset.nonempty_iff_ne_empty.mpr hnew
          have hne2 : ∀ t ∈ tiles ++ [(⟨item, (item.geometry ∩ a) \ mosaic⟩ : Tile)],
              t.geom.Nonempty := by
            intro t ht
            rcases List.mem_append.mp ht with h | h
            · exact hne t h
            · simp only [List.mem_singleton] at h
              subst h
              exact hnt
          have hsub2 : ∀ t ∈ tiles ++ [(⟨item, (item.geometry ∩ a) \ mosaic⟩ : Tile)],
              t.geom ⊆ mosaic ∪ item.geometry := by
            intro t ht
            rcases List.mem_append.mp ht with h | h
            · exact (hsub t h).trans Finset.subset_union_left
            · simp only [List.mem_singleton] at h
              subst h
              exact (Finset.sdiff_subset.trans Finset.inter_subset_left).trans
                Finset.subset_union_right
          have hpw2 : List.Pairwise (fun s t => s.geom ∩ t.geom = ∅)
              (tiles ++ [(⟨item, (item.geometry ∩ a) \ mosaic⟩ : Tile)]) := by
            refine List.pairwise_append.mpr ⟨hpw, List.pairwise_singleton _ _, ?_⟩
            intro s hs t ht
            simp only [List.mem_singleton] at ht
            subst ht
            apply Finset.eq_empty_iff_forall_not_mem.mpr
            intro x hx
            rcases Finset.mem_inter.mp hx with ⟨hx1, hx2⟩
            exact (Finset.mem_sdiff.mp hx2).2 (hsub s hs hx1)
          split
          · exact ⟨hne2, hpw2⟩
          · split
            · rcases buildFinish_cases p a (mosaic ∪ item.geometry)
                (tiles ++ [⟨item, (item.geometry ∩ a) \ mosaic⟩]) with hc | hc <;>
                rw [hc]
              · exact ⟨hne2, hpw2⟩
              · simp
            · exact ih _ _ hne2 hsub2 hpw2
      · exact ih mosaic tiles hne hsub hpw

lemma buildFinish_below (p : Processor) (a m : Geometry) (t : List Tile)
    (h : (buildFinish p a m t).2.2 < p.min_cover) :
    (buildFinish p a m t).1 = [] ∧ (buildFinish p a m t).2.1 = none := by
  simp only [buildFinish] at h ⊢
  by_cases hc : p.min_cover ≤ pyint (gArea (m ∩ a) / gArea a * 100)
  · rw [if_pos hc] at h
    simp only at h
    omega
  · rw [if_neg hc]
    simp

lemma buildLoop_below (p : Processor) (a : Geometry) (hp : p.min_cover ≤ 100) :
    ∀ (res : List Item) (mosaic : Geometry) (tiles : List Tile),
      (buildLoop p a res mosaic tiles).2.2 < p.min_cover →
      (buildLoop p a res mosaic tiles).1 = [] ∧
      (buildLoop p a res mosaic tiles).2.1 = none := by
  intro res
  induction res with
  | nil =>
      intro mosaic tiles h
      simp only [buildLoop] at h ⊢
      exact buildFinish_below p a mosaic tiles h
  | cons item rest ih =>
      intro mosaic tiles h
      simp only [buildLoop] at h ⊢
      by_cases h1 : gIntersects a (item.geometry ∩ a) ∧
          ¬ gContains mosaic (item.geometry ∩ a)
      · rw [if_pos h1] at h ⊢
        by_cases h2 : (item.geometry ∩ a) \ mosaic = ∅
        · rw [if_pos h2] at h ⊢
          exact ih _ _ h
        · rw [if_neg h2] at h ⊢
          by_cases h3 : gCovers (mosaic ∪ item.geometry) a
          · rw [if_pos h3] at h ⊢
            exfalso
            simp only at h
            omega
          · rw [if_neg h3] at h ⊢
            by_cases h4 : MAX_TILES <
                (tiles ++ [(⟨item, (item.geometry ∩ a) \ mosaic⟩ : Tile)]).length
            · rw [if_pos h4] at h ⊢
              exact buildFinish_below p a _ _ h
            · rw [if_neg h4] at h ⊢
              exact ih _ _ h
      · rw [if_neg h1] at h ⊢
        exact ih _ _ h

set_option maxRecDepth 40000 in
/-- Claim C1 counterexample: with 66 disjoint one-cell candidates over a
66-cell AOI, build_mosaic returns a tile list of 65 tiles: the cap check
MAX_TILES < len(tiles) runs only after a tile is appended, so the returned
list exceeds the claimed 64-tile maximum. -/
theorem c1_counterexample :
    (build_mosaic pMeta itemsCap aoiCap).1.length = 65 := by
  rw [build_mosaic_eqN]
  decide

/-- Claim C1 (amended): build_mosaic stops accepting candidates once the
accepted count exceeds MAX_TILES = 64, so the returned tile list never
contains more than 65 tiles (the cap check is reached only after the 65th
tile was appended). -/
theorem c1_tile_cap (p : Processor) (res : List Item) (a : Geometry) :
    (build_mosaic p res a).1.length ≤ MAX_TILES + 1 := by
  unfold build_mosaic
  exact buildLoop_length p a res ∅ [] (by simp)

/-- Claim C9: every tile list returned by build_mosaic contains only tiles
with nonempty geometry, and the geometries of any two distinct returned
tiles are disjoint. -/
theorem c9_tiles_nonempty_disjoint (p : Processor) (res : List Item) (a : Geometry) :
    (∀ t ∈ (build_mosaic p res a).1, t.geom.Nonempty) ∧
    List.Pairwise (fun s t => s.geom ∩ t.geom = ∅) (build_mosaic p res a).1 := by
  unfold build_mosaic
  exact buildLoop_disjoint p a res ∅ [] (by simp) (by simp) (by simp)

/-- Claim C5 counterexample: the candidate list [itemPart, itemFull] contains
a candidate (itemFull) whose footprint fully contains the AOI, yet
build_mosaic returns two tiles, not exactly one: the partial candidate ranked
first is accepted before the containing one is reached. -/
theorem c5_counterexample :
    aoiTwo ⊆ itemFull.geometry ∧
    (build_mosaic pMeta [itemPart, itemFull] aoiTwo).1.length = 2 := by
  constructor
  · decide
  · rw [build_mosaic_eqN]
    decide

/-- Claim C5 (amended): for every nonempty AOI and every candidate list whose
FIRST candidate's footprint fully contains the AOI, build_mosaic returns
exactly one tile and a coverage of 100. -/
theorem c5_first_contains (p : Processor) (item : Item) (res : List Item)
    (a : Geometry) (h1 : a.Nonempty) (h2 : a ⊆ item.geometry) :
    (build_mosaic p (item :: res) a).1.length = 1 ∧
    (build_mosaic p (item :: res) a).2.2 = 100 := by
  have hgeom : item.geometry ∩ a = a := Finset.inter_eq_right.mpr h2
  have hcond : gIntersects a a ∧ ¬ gContains (∅ : Geometry) a := by
    constructor
    · unfold gIntersects
      rwa [Finset.inter_self]
    · intro hcon
      have h3 := hcon.2
      rw [Finset.subset_empty] at h3
      exact Finset.nonempty_iff_ne_empty.mp h1 h3
  have hne : ¬ (a \ (∅ : Geometry) = ∅) := by
    rw [Finset.sdiff_empty]
    exact Finset.nonempty_iff_ne_empty.mp h1
  have hcov : gCovers ((∅ : Geometry) ∪ item.geometry) a := by
    unfold gCovers
    rw [Finset.empty_union]
    exact h2
  simp only [build_mosaic, buildLoop, hgeom, if_pos hcond, if_neg hne, if_pos hcov]
  simp

/-- Witness for c5_first_contains: the two-cell AOI and the containing
candidate ranked first give one tile and 100% coverage. -/
theorem c5_first_contains_witness :
    aoiTwo.Nonempty ∧ aoiTwo ⊆ itemFull.geometry ∧
    ((build_mosaic pMeta [itemFull] aoiTwo).1.length = 1 ∧
     (build_mosaic pMeta [itemFull] aoiTwo).2.2 = 100) :=
  ⟨by decide, by decide, c5_first_contains pMeta itemFull [] aoiTwo (by decide) (by decide)⟩


lemma dateAccepted_def (p : Processor) (sr : ℕ → List Item) (dl : DLDict)
    (ue : String → ℕ × ℕ × ℚ) (g : Geometry) (d : ℕ) :
    dateAccepted p sr dl ue g d =
      (if (build_mosaic p (sr d) g).1 = [] then false
       else if 100 ≤ p.max_clouds then true
       else
         match (build_mosaic p (sr d) g).2.1 with
         | some m =>
             match get_clouds p dl ue (build_mosaic p (sr d) g).1 m with
             | Except.ok cc => decide (cc.1 ≤ p.max_clouds ∧ p.min_confidence ≤ cc.2)
             | Except.error _ => false
         | none => false) := rfl

lemma get_tiles_run (p : Processor) (sr : ℕ → List Item) (dl : DLDict)
    (ue : String → ℕ × ℕ × ℚ) :
    ∀ (dates : List ℕ) (aoi : AOIState),
      (get_tiles p sr dl ue aoi dates).2 =
        (match dates.find? (dateAccepted p sr dl ue aoi.geom) with
         | some d => (some d, (build_mosaic p (sr d) aoi.geom).1)
         | none => (none, [])) ∧
      (get_tiles p sr dl ue aoi dates).1.max_cover =
        (datesTried (dateAccepted p sr dl ue aoi.geom) dates).foldl
          (fun acc d => max acc (build_mosaic p (sr d) aoi.geom).2.2) aoi.max_cover := by
  intro dates
  induction dates with
  | nil =>
      intro aoi
      simp [get_tiles, datesTried]
  | cons d ds ih =>
      intro aoi
      by_cases ht : (build_mosaic p (sr d) aoi.geom).1 = []
      · -- no tiles: the date is rejected and the loop continues with aoi1
        have hA : dateAccepted p sr dl ue aoi.geom d = false := by
          rw [dateAccepted_def, if_pos ht]
        have hstep : get_tiles p sr dl ue aoi (d :: ds) =
            get_tiles p sr dl ue
              ⟨aoi.geom, max aoi.max_cover (build_mosaic p (sr d) aoi.geom).2.2,
               aoi.min_clouds⟩ ds := by
          simp only [get_tiles]
          rw [if_neg (by simpa using ht)]
        rw [hstep, List.find?_cons_of_neg _ (by simp [hA]),
          datesTried, if_neg (by simp [hA])]
        exact ih _
      · by_cases hmc : p.max_clouds < 100
        · cases hm : (build_mosaic p (sr d) aoi.geom).2.1 with
          | none =>
              have hA : dateAccepted p sr dl ue aoi.geom d = false := by
                rw [dateAccepted_def, if_neg ht, if_neg (by omega), hm]
              have hstep : get_tiles p sr dl ue aoi (d :: ds) =
                  get_tiles p sr dl ue
                    ⟨aoi.geom, max aoi.max_cover (build_mosaic p (sr d) aoi.geom).2.2,
                     aoi.min_clouds⟩ ds := by
                simp only [get_tiles]
                rw [if_pos ht, if_pos hmc, hm]
              rw [hstep, List.find?_cons_of_neg _ (by simp [hA]),
                datesTried, if_neg (by simp [hA])]
              exact ih _
          | some m =>
              cases hgc : get_clouds p dl ue (build_mosaic p (sr d) aoi.geom).1 m with
              | error e =>
                  have hA : dateAccepted p sr dl ue aoi.geom d = false := by
                    rw [dateAccepted_def, if_neg ht, if_neg (by omega), hm]
                    dsimp only
                    rw [hgc]
                  have hstep : get_tiles p sr dl ue aoi (d :: ds) =
                      get_tiles p sr dl ue
                        ⟨aoi.geom, max aoi.max_cover (build_mosaic p (sr d) aoi.geom).2.2,
                         aoi.min_clouds⟩ ds := by
                    simp only [get_tiles]
                    rw [if_pos ht, if_pos hmc, hm]
                    dsimp only
                    rw [hgc]
                  rw [hstep, List.find?_cons_of_neg _ (by simp [hA]),
                    datesTried, if_neg (by simp [hA])]
                  exact ih _
              | ok cc =>
                  by_cases hacc : cc.1 ≤ p.max_clouds ∧ p.min_confidence ≤ cc.2
                  · have hA : dateAccepted p sr dl ue aoi.geom d = true := by
                      rw [dateAccepted_def, if_neg ht, if_neg (by omega), hm]
                      dsimp only
                      rw [hgc]
                      simpa using hacc
                    have hstep : get_tiles p sr dl ue aoi (d :: ds) =
                        (⟨aoi.geom, max aoi.max_cover (build_mosaic p (sr d) aoi.geom).2.2,
                          min aoi.min_clouds cc.1⟩, some d,
                          (build_mosaic p (sr d) aoi.geom).1) := by
                      simp only [get_tiles]
                      rw [if_pos ht, if_pos hmc, hm]
                      dsimp only
                      rw [hgc]
                      dsimp only
                      rw [if_pos hacc]
                    rw [hstep, List.find?_cons_of_pos _ hA, datesTried, if_pos hA]
                    simp
                  · have hA : dateAccepted p sr dl ue aoi.geom d = false := by
                      rw [dateAccepted_def, if_neg ht, if_neg (by omega), hm]
                      dsimp only
                      rw [hgc]
                      simpa using hacc
                    have hstep : get_tiles p sr dl ue aoi (d :: ds) =
                        get_tiles p sr dl ue
                          ⟨aoi.geom, max aoi.max_cover (build_mosaic p (sr d) aoi.geom).2.2,
                           min aoi.min_clouds cc.1⟩ ds := by
                      simp only [get_tiles]
                      rw [if_pos ht, if_pos hmc, hm]
                      dsimp only
                      rw [hgc]
                      dsimp only
                      rw [if_neg hacc]
                    rw [hstep, List.find?_cons_of_neg _ (by simp [hA]),
                      datesTried, if_neg (by simp [hA])]
                    exact ih _
        · -- cloud checking disabled: accept immediately
          have hA : dateAccepted p sr dl ue aoi.geom d = true := by
            rw [dateAccepted_def, if_neg ht, if_pos (by omega)]
          have hstep : get_tiles p sr dl ue aoi (d :: ds) =
              (⟨aoi.geom, max aoi.max_cover (build_mosaic p (sr d) aoi.geom).2.2,
                aoi.min_clouds⟩, some d, (build_mosaic p (sr d) aoi.geom).1) := by
            simp only [get_tiles]
            rw [if_pos ht, if_neg hmc]
          rw [hstep, List.find?_cons_of_pos _ hA, datesTried, if_pos hA]
          simp


/-- Claim C7: get_tiles evaluates the supplied dates strictly in order and
returns the first accepted date with its tiles; a date producing tiles is
accepted immediately when the cloud threshold is at least 100, otherwise
exactly when the evaluated cloud-fraction is at most the maximum allowed and
the confidence at least the minimum required; when no date is accepted the
result is (none, []). -/
theorem c7_first_accepted_date (p : Processor) (sr : ℕ → List Item)
    (dl : DLDict) (ue : String → ℕ × ℕ × ℚ) (aoi : AOIState) (dates : List ℕ) :
    (get_tiles p sr dl ue aoi dates).2 =
      (match dates.find? (dateAccepted p sr dl ue aoi.geom) with
       | some d => (some d, (build_mosaic p (sr d) aoi.geom).1)
       | none => (none, [])) :=
  (get_tiles_run p sr dl ue dates aoi).1

/-- Claim C8: when build_mosaic finishes below the required minimum coverage
(candidates exhausted or cap hit; under the CLI invariant min_cover ≤ 100,
the early 100%-coverage exit can never be below the minimum), it returns an
empty tile list and a null mosaic while still reporting the achieved cover,
and get_tiles folds every evaluated date's reported cover into the AOI's
best-coverage-so-far tracker. -/
theorem c8_rejected_reported (p : Processor) (sr : ℕ → List Item)
    (dl : DLDict) (ue : String → ℕ × ℕ × ℚ) (res : List Item) (a : Geometry)
    (aoi : AOIState) (dates : List ℕ) (hp : p.min_cover ≤ 100) :
    ((build_mosaic p res a).2.2 < p.min_cover →
      (build_mosaic p res a).1 = [] ∧ (build_mosaic p res a).2.1 = none) ∧
    (get_tiles p sr dl ue aoi dates).1.max_cover =
      (datesTried (dateAccepted p sr dl ue aoi.geom) dates).foldl
        (fun acc d => max acc (build_mosaic p (sr d) aoi.geom).2.2)
        aoi.max_cover :=
  ⟨fun h => buildLoop_below p a hp res ∅ [] h,
   (get_tiles_run p sr dl ue dates aoi).2⟩


/-
  The metadata path of get_clouds computes the area-weighted accumulation.
-/

lemma cloudsLoop_metadata (p : Processor) (dl : DLDict)
    (ue : String → ℕ × ℕ × ℚ) (A : ℚ) (hmb : p.mask_bands = []) (hA : A ≠ 0) :
    ∀ (tiles : List Tile) (mc mconf : ℚ),
      cloudsLoop p dl ue A tiles mc mconf =
        Except.ok
          (pyint (mc + (tiles.map
            (fun t => item_metadata_cloudiness t.item * (t.area / A))).sum),
           pyint (mconf + (tiles.map (fun t => (0 : ℚ) * (t.area / A))).sum)) := by
  intro tiles
  induction tiles with
  | nil => intro mc mconf; simp [cloudsLoop]
  | cons t ts ih =>
      intro mc mconf
      simp only [cloudsLoop, tileClouds, hmb, ne_eq, not_true_eq_false, if_false,
        if_neg hA]
      rw [ih]
      simp only [List.map_cons, List.sum_cons, add_assoc]

lemma specWeightedMean_map (tiles : List Tile) (A : ℚ) :
    specWeightedMean (tiles.map (fun t => item_metadata_cloudiness t.item))
        (tiles.map Tile.area) A =
      (tiles.map (fun t => item_metadata_cloudiness t.item * (t.area / A))).sum := by
  induction tiles with
  | nil => simp [specWeightedMean]
  | cons t ts ih =>
      simp only [specWeightedMean, List.map_cons, List.zipWith_cons_cons,
        List.sum_cons] at ih ⊢
      rw [ih]

/-- Claim C2 (code bug): when self.get_tiles(aoi) raises, the except handler
in Processor.__call__ assigns tiles = [] but never binds the local variable
date, so the final return statement raises UnboundLocalError instead of
returning the per-AOI result tuple: the exception boundary does not hold. -/
theorem c2_call_unboundlocal :
    Processor.call pMeta (Except.error "convex_hull failed") (Except.ok 5)
      (Except.ok none) = Except.error "UnboundLocalError" := rfl

/-- Claim C3 counterexample: an item whose metadata supplies
visible_percent = 0 is routed to the cloud_cover branch by Python truthiness
(100 × 1/2 = 50), not to the claimed 100 − visible_percent = 100. -/
theorem c3_counterexample :
    itemVp0.visible_percent = some 0 ∧
    item_metadata_cloudiness itemVp0 = 50 ∧ (50 : ℚ) ≠ 100 - 0 := by
  refine ⟨rfl, ?_, by norm_num⟩
  norm_num [item_metadata_cloudiness, itemVp0]

/-- Claim C3 (amended): item_metadata_cloudiness returns 100 minus the
visible-percentage whenever that field is supplied AND nonzero (truthy), and
returns 100 times the scene-level cloud-cover when the field is absent or
equals 0. -/
theorem c3_truthiness (item : Item) :
    (∀ v : ℚ, item.visible_percent = some v → v ≠ 0 →
      item_metadata_cloudiness item = 100 - v) ∧
    (item.visible_percent = none ∨ item.visible_percent = some 0 →
      item_metadata_cloudiness item = item.cloud_cover * 100) := by
  constructor
  · intro v hv hv0
    simp [item_metadata_cloudiness, hv, hv0]
  · rintro (hv | hv) <;> simp [item_metadata_cloudiness, hv]

/-- Witness for c3_truthiness at visible_percent = 30 and at an absent
visible_percent with cloud_cover = 1/4. -/
theorem c3_truthiness_witness :
    ((⟨1, ∅, some 30, 0⟩ : Item).visible_percent = some 30 ∧ (30 : ℚ) ≠ 0 ∧
      item_metadata_cloudiness ⟨1, ∅, some 30, 0⟩ = 100 - 30) ∧
    ((⟨2, ∅, none, 1/4⟩ : Item).visible_percent = none ∧
      item_metadata_cloudiness ⟨2, ∅, none, 1/4⟩ =
        (⟨2, ∅, none, 1/4⟩ : Item).cloud_cover * 100) :=
  ⟨⟨rfl, by norm_num, (c3_truthiness _).1 30 rfl (by norm_num)⟩,
   ⟨rfl, (c3_truthiness _).2 (Or.inl rfl)⟩⟩

/-- Claim C4 counterexample: a zero-area mosaic together with a nonempty tile
list makes get_clouds raise ZeroDivisionError (tile.area / mosaic.area), not
return 0. -/
theorem c4_counterexample :
    gArea (∅ : Geometry) = 0 ∧
    get_clouds pMeta [] ueZero [tileOne] ∅ = Except.error "ZeroDivisionError" := by
  constructor
  · simp [gArea]
  · rfl

/-- Claim C4 (amended): get_clouds degrades gracefully to (0, 0) on a
zero-area mosaic only when the tile list is empty (the per-tile loop never
runs); with at least one tile and a zero-area mosaic the metadata-path
evaluation raises ZeroDivisionError. -/
theorem c4_graceful_only_empty (p : Processor) (dl : DLDict)
    (ue : String → ℕ × ℕ × ℚ) (m : Geometry) :
    get_clouds p dl ue [] m = Except.ok (0, 0) ∧
    (∀ (t : Tile) (ts : List Tile), p.mask_bands = [] → gArea m = 0 →
      get_clouds p dl ue (t :: ts) m = Except.error "ZeroDivisionError") := by
  constructor
  · rfl
  · intro t ts hmb hm0
    simp [get_clouds, cloudsLoop, tileClouds, hmb, hm0]

/-- Witness for c4_graceful_only_empty on the empty mosaic. -/
theorem c4_graceful_only_empty_witness :
    pMeta.mask_bands = [] ∧ gArea (∅ : Geometry) = 0 ∧
    get_clouds pMeta [] ueZero [] ∅ = Except.ok (0, 0) ∧
    get_clouds pMeta [] ueZero [tileOne] ∅ = Except.error "ZeroDivisionError" :=
  ⟨rfl, by simp [gArea], (c4_graceful_only_empty pMeta [] ueZero ∅).1,
   (c4_graceful_only_empty pMeta [] ueZero ∅).2 tileOne [] rfl (by simp [gArea])⟩

/-- Claim C6 (code bug): the downloads dict of download_udm is a mutable
default argument shared across calls.  A second evaluation that fetches
NOTHING still sees the first evaluation's entry, so get_clouds consults the
earlier (already deleted) file tmpA/udm_1.tif and produces a result, whereas
with a genuinely fresh dict the same evaluation raises the no-udm error:
the result of one date's evaluation depends on earlier evaluations. -/
theorem c6_shared_downloads :
    download_udm [] (download_udm completed6 []) =
      [(1, "ortho_udm2", "tmpA/udm_1.tif")] ∧
    get_clouds pMask6 (download_udm [] (download_udm completed6 [])) ue6
        [tileOne] {0} = Except.ok (50, 50) ∧
    get_clouds pMask6 (download_udm [] []) ue6 [tileOne] {0} =
      Except.error "no udm/udm2 was available for 1, trying another day" := by
  refine ⟨rfl, ?_, rfl⟩
  have key : get_clouds pMask6 (download_udm [] (download_udm completed6 []))
      ue6 [tileOne] {0} =
      Except.ok
        (pyint ((0 : ℚ) + 100 * ((1 : ℕ) : ℚ) / (((1 : ℕ) : ℚ) + ((1 : ℕ) : ℚ)) *
          (Tile.area tileOne / gArea {0})),
         pyint ((0 : ℚ) + 50 * (Tile.area tileOne / gArea {0}))) := rfl
  rw [key]
  have ha : Tile.area tileOne = 1 := by simp [Tile.area, tileOne, gArea]
  have hg : gArea ({0} : Geometry) = 1 := by simp [gArea]
  rw [ha, hg]
  have e1 : (0 : ℚ) + 100 * ((1 : ℕ) : ℚ) / (((1 : ℕ) : ℚ) + ((1 : ℕ) : ℚ)) *
      ((1 : ℚ) / 1) = 50 := by norm_num
  have e2 : (0 : ℚ) + 50 * ((1 : ℚ) / 1) = 50 := by norm_num
  rw [e1, e2]
  have hp : pyint 50 = 50 := by
    rw [pyint_eq_floor 50 (by norm_num)]
    simp
  rw [hp]

/-- Witness for c8_rejected_reported at concrete inputs. -/
theorem c8_rejected_reported_witness :
    pMeta.min_cover ≤ 100 ∧
    (((build_mosaic pMeta [] {0}).2.2 < pMeta.min_cover →
       (build_mosaic pMeta [] {0}).1 = [] ∧ (build_mosaic pMeta [] {0}).2.1 = none) ∧
     (get_tiles pMeta srEmpty [] ueZero aoiStW []).1.max_cover =
       (datesTried (dateAccepted pMeta srEmpty [] ueZero aoiStW.geom) []).foldl
         (fun acc d => max acc (build_mosaic pMeta (srEmpty d) aoiStW.geom).2.2)
         aoiStW.max_cover) :=
  ⟨by decide, c8_rejected_reported pMeta srEmpty [] ueZero [] {0} aoiStW [] (by decide)⟩

/-- Claim C10 counterexample: two equal-area tiles with cloud-fractions
10 and 15 have area-weighted mean 25/2, but get_clouds returns the int()
truncation 12, so the returned value is not the area-weighted mean itself. -/
theorem c10_counterexample :
    get_clouds pMeta [] ueZero [tileOne, tile15] {0, 1} = Except.ok (12, 0) ∧
    specWeightedMean [10, 15] [1, 1] 2 = 25 / 2 ∧ ((12 : ℚ) ≠ 25 / 2) := by
  have hc : (Finset.card ({0, 1} : Finset ℕ)) = 2 := by decide
  have hA : gArea ({0, 1} : Geometry) ≠ 0 := by simp [gArea, hc]
  refine ⟨?_, by norm_num [specWeightedMean], by norm_num⟩
  unfold get_clouds
  rw [cloudsLoop_metadata pMeta [] ueZero _ rfl hA [tileOne, tile15] 0 0]
  have hsum : ((0 : ℚ) + ([tileOne, tile15].map
      (fun t => item_metadata_cloudiness t.item *
        (t.area / gArea ({0, 1} : Geometry)))).sum) = 25 / 2 := by
    simp [tileOne, tile15, item_metadata_cloudiness, Tile.area, gArea, hc]
    norm_num
  have hzero : ((0 : ℚ) + ([tileOne, tile15].map
      (fun t => (0 : ℚ) * (t.area / gArea ({0, 1} : Geometry)))).sum) = 0 := by
    simp
  rw [hsum, hzero]
  have h1 : pyint (25 / 2) = 12 := by
    rw [pyint_eq_floor _ (by norm_num), Int.floor_eq_iff]
    norm_num
  have h0 : pyint 0 = 0 := rfl
  rw [h1, h0]

/-- Claim C10 (amended): on the metadata path with a nonzero mosaic area,
get_clouds returns exactly the int() truncation of the spec's area-weighted
mean (weight = tile-area / mosaic-area) of the per-tile cloud-fractions, and
confidence 0; for the equal-area cloud-fractions 10, 20, 30 the mean is the
integer 20 and the returned value is exactly 20 (see the witness). -/
theorem c10_weighted_mean (p : Processor) (dl : DLDict)
    (ue : String → ℕ × ℕ × ℚ) (tiles : List Tile) (m : Geometry)
    (hmb : p.mask_bands = []) (hA : gArea m ≠ 0) :
    get_clouds p dl ue tiles m =
      Except.ok
        (pyint (specWeightedMean
          (tiles.map (fun t => item_metadata_cloudiness t.item))
          (tiles.map Tile.area) (gArea m)), 0) := by
  unfold get_clouds
  rw [cloudsLoop_metadata p dl ue (gArea m) hmb hA tiles 0 0,
    specWeightedMean_map]
  have h2 : (tiles.map (fun t => (0 : ℚ) * (t.area / gArea m))).sum = 0 := by
    induction tiles with
    | nil => simp
    | cons t ts ih => simp [ih]
  rw [h2]
  norm_num
  rfl

/-- Witness for c10_weighted_mean: three equal-area tiles with
cloud-fractions 10, 20, 30 yield exactly (20, 0). -/
theorem c10_weighted_mean_witness :
    pMeta.mask_bands = [] ∧ gArea mosaicEq ≠ 0 ∧
    get_clouds pMeta [] ueZero tilesEq mosaicEq =
      Except.ok
        (pyint (specWeightedMean
          (tilesEq.map (fun t => item_metadata_cloudiness t.item))
          (tilesEq.map Tile.area) (gArea mosaicEq)), 0) ∧
    get_clouds pMeta [] ueZero tilesEq mosaicEq = Except.ok (20, 0) := by
  have hc : (Finset.card (mosaicEq : Finset ℕ)) = 3 := by decide
  have hA : gArea mosaicEq ≠ 0 := by simp [gArea, hc]
  have hmain := c10_weighted_mean pMeta [] ueZero tilesEq mosaicEq rfl hA
  refine ⟨rfl, hA, hmain, ?_⟩
  rw [hmain]
  have hwm : specWeightedMean
      (tilesEq.map (fun t => item_metadata_cloudiness t.item))
      (tilesEq.map Tile.area) (gArea mosaicEq) = 20 := by
    simp [specWeightedMean, tilesEq, tileOne, tile20, tile30,
      item_metadata_cloudiness, Tile.area, gArea, hc]
    norm_num
  rw [hwm]
  have hp : pyint 20 = 20 := by
    rw [pyint_eq_floor 20 (by norm_num)]
    simp
  rw [hp]

end PCF
